import Mathlib

/-!
Verification of the astro-tracker-server risk-scoring and alert-dispatch
pipeline.

This file shallowly embeds the JavaScript sources:
  - `src/services/riskEngine.js`     (risk scorer)
  - `src/services/alertDispatcher.js` (alert matcher + dedup guard)
  - the `Alert` and `Asteroid` mongoose models (alert records, upsert)
  - `src/services/nasaService.js`    (feed client)
  - `src/services/scheduler.js`      (batch processing)

Conventions of the embedding:
  - JS numbers appearing only in rational arithmetic are modelled by `ℚ`;
    values that flow through `Math.log10` are modelled by `ℝ`.
  - A JS value that may be `undefined` is modelled by `Option`.
  - JS truthiness of a numeric value (`!x` / `x && _`) is explicit:
    `undefined`, absent and `0` are falsy.
  - Timestamps are integer milliseconds since the epoch (`ℤ`).
  - Database collections are lists of records; the unique index on
    `neo_reference_id` appears as a `Nodup` hypothesis where needed.
  - `Math.round x` is `⌊x + 1/2⌋` (JS rounds half away from zero and all
    scores here are nonnegative).
-/

/-! ## Risk engine (`src/services/riskEngine.js`) -/

/-- JS truthiness test for an optional number: `undefined` and `0` are falsy. -/
def jsFalsyQ : Option ℚ → Bool
  | none => true
  | some x => x = 0

/-- `Math.round` for the nonnegative values produced by the risk engine:
round half up, i.e. `⌊x + 1/2⌋`. -/
noncomputable def jsRound (x : ℝ) : ℤ := ⌊x + 1 / 2⌋

/-- `MAX_DIAMETER` constant from riskEngine.js. -/
def MAX_DIAMETER : ℚ := 1000

/-- `MAX_VELOCITY` constant from riskEngine.js. -/
def MAX_VELOCITY : ℚ := 30

/-- `MIN_SAFE_DISTANCE` constant from riskEngine.js. -/
def MIN_SAFE_DISTANCE : ℚ := 1

/-- `MAX_CONCERNING_DISTANCE` constant from riskEngine.js. -/
def MAX_CONCERNING_DISTANCE : ℚ := 50

/-- `calculateDiameterScore(diameterMeters)`:
`if (!diameterMeters || diameterMeters <= 0) return 0;` then
`min(100, max(0, (log10 d / log10 1000) * 100))`.  The `!d` test is
subsumed by `d ≤ 0` once `d` is known to be present. -/
noncomputable def calculateDiameterScore : Option ℚ → ℝ
  | none => 0
  | some d =>
    if d ≤ 0 then 0
    else min 100 (max 0 ((Real.logb 10 (d : ℝ) / Real.logb 10 (MAX_DIAMETER : ℝ)) * 100))

/-- `calculateDistanceScore(lunarDistance)`:
unknown or `≤ 0` is treated as worst case (100); `≤ 1` LD gives 100;
`≥ 50` LD gives 0; otherwise linear interpolation clamped to `[0,100]`. -/
def calculateDistanceScore : Option ℚ → ℚ
  | none => 100
  | some d =>
    if d ≤ 0 then 100
    else if d ≤ MIN_SAFE_DISTANCE then 100
    else if MAX_CONCERNING_DISTANCE ≤ d then 0
    else min 100 (max 0 ((MAX_CONCERNING_DISTANCE - d) / (MAX_CONCERNING_DISTANCE - MIN_SAFE_DISTANCE) * 100))

/-- `calculateVelocityScore(velocityKmS)`: 0 when unknown or `≤ 0`, else
`min(100, max(0, v / 30 * 100))`. -/
def calculateVelocityScore : Option ℚ → ℚ
  | none => 0
  | some v =>
    if v ≤ 0 then 0
    else min 100 (max 0 (v / MAX_VELOCITY * 100))

/-- `getRiskCategory(score)`: ≥76 high, ≥51 moderate, ≥26 low, else minimal. -/
def getRiskCategory (score : ℤ) : String :=
  if 76 ≤ score then "high"
  else if 51 ≤ score then "moderate"
  else if 26 ≤ score then "low"
  else "minimal"

/-- `estimated_diameter.meters` object of a raw NASA record. -/
structure DiameterMeters where
  estimated_diameter_min : Option ℚ
  estimated_diameter_max : Option ℚ
  deriving DecidableEq

/-- `miss_distance` object of a close-approach entry (values already
through `parseFloat`; an unparsable/absent value is `none`). -/
structure MissDistance where
  kilometers : Option ℚ
  astronomical : Option ℚ
  lunar : Option ℚ
  deriving DecidableEq

/-- `relative_velocity` object of a close-approach entry. -/
structure RelativeVelocity where
  kilometers_per_second : Option ℚ
  kilometers_per_hour : Option ℚ
  deriving DecidableEq

/-- One entry of `close_approach_data`. -/
structure CloseApproachEntry where
  close_approach_date : String
  close_approach_date_full : Option String
  miss_distance : Option MissDistance
  relative_velocity : Option RelativeVelocity
  orbiting_body : Option String
  deriving DecidableEq

/-- An input object to `calculateRiskScore` / `upsertFromNASA`: it can carry
the external NASA feed shape (`is_potentially_hazardous_asteroid`,
`estimated_diameter.meters`, `close_approach_data`) and/or the stored DB
shape (`isPotentiallyHazardous`, `estimatedDiameterMax`, …). -/
structure NeoObject where
  neo_reference_id : Option String
  id : String
  name : String
  nasa_jpl_url : Option String
  absolute_magnitude_h : Option ℚ
  is_potentially_hazardous_asteroid : Option Bool
  estimated_diameter_meters : Option DiameterMeters
  close_approach_data : List CloseApproachEntry
  isPotentiallyHazardous : Option Bool
  estimatedDiameterMax : Option ℚ
  missDistanceLunar : Option ℚ
  relativeVelocityKmS : Option ℚ
  deriving DecidableEq

/-- `asteroid.is_potentially_hazardous_asteroid ?? asteroid.isPotentiallyHazardous ?? false`. -/
def extractIsHazardous (asteroid : NeoObject) : Bool :=
  match asteroid.is_potentially_hazardous_asteroid with
  | some b => b
  | none => asteroid.isPotentiallyHazardous.getD false

/-- `let diameter = asteroid.estimatedDiameterMax;`
`if (!diameter && asteroid.estimated_diameter?.meters) diameter = …estimated_diameter_max`. -/
def extractDiameter (asteroid : NeoObject) : Option ℚ :=
  match asteroid.estimated_diameter_meters with
  | some m =>
    if jsFalsyQ asteroid.estimatedDiameterMax then m.estimated_diameter_max
    else asteroid.estimatedDiameterMax
  | none => asteroid.estimatedDiameterMax

/-- `let lunarDistance = asteroid.missDistanceLunar;`
`if (!lunarDistance && asteroid.close_approach_data?.[0])`
`  lunarDistance = parseFloat(…miss_distance?.lunar) || 0`. -/
def extractLunarDistance (asteroid : NeoObject) : Option ℚ :=
  match asteroid.close_approach_data with
  | ca :: _ =>
    if jsFalsyQ asteroid.missDistanceLunar then
      some ((ca.miss_distance.bind MissDistance.lunar).getD 0)
    else asteroid.missDistanceLunar
  | [] => asteroid.missDistanceLunar

/-- `let velocity = asteroid.relativeVelocityKmS;`
`if (!velocity && asteroid.close_approach_data?.[0])`
`  velocity = parseFloat(…relative_velocity?.kilometers_per_second) || 0`. -/
def extractVelocity (asteroid : NeoObject) : Option ℚ :=
  match asteroid.close_approach_data with
  | ca :: _ =>
    if jsFalsyQ asteroid.relativeVelocityKmS then
      some ((ca.relative_velocity.bind RelativeVelocity.kilometers_per_second).getD 0)
    else asteroid.relativeVelocityKmS
  | [] => asteroid.relativeVelocityKmS

/-- Result of `calculateRiskScore` (the `breakdown`/`factors` observability
fields are not needed by any claim and are omitted). -/
structure RiskResult where
  score : ℤ
  category : String
  deriving DecidableEq

/-- `calculateRiskScore(asteroid)`: weighted combination
`round(0.40·hazard + 0.25·diameter + 0.25·distance + 0.10·velocity)`
clamped to `[1,100]`, with the category derived from the final score. -/
noncomputable def calculateRiskScore (asteroid : NeoObject) : RiskResult :=
  let isHazardous := extractIsHazardous asteroid
  let hazardWeight : ℚ := if isHazardous then 100 else 0
  let diameterScore := calculateDiameterScore (extractDiameter asteroid)
  let distanceScore := calculateDistanceScore (extractLunarDistance asteroid)
  let velocityScore := calculateVelocityScore (extractVelocity asteroid)
  let totalScore : ℤ := jsRound
    ((hazardWeight : ℝ) * 0.40 + diameterScore * 0.25 +
      (distanceScore : ℝ) * 0.25 + (velocityScore : ℝ) * 0.10)
  let finalScore := min 100 (max 1 totalScore)
  { score := finalScore, category := getRiskCategory finalScore }

/-- A raw object all of whose scoring inputs are unknown: not hazardous,
no diameter, no distance, no velocity, no close-approach entry. -/
def allUnknownNeo : NeoObject :=
  { neo_reference_id := none
    id := ""
    name := ""
    nasa_jpl_url := none
    absolute_magnitude_h := none
    is_potentially_hazardous_asteroid := none
    estimated_diameter_meters := none
    close_approach_data := []
    isPotentiallyHazardous := none
    estimatedDiameterMax := none
    missDistanceLunar := none
    relativeVelocityKmS := none }

lemma jsRound_ofRat (q : ℚ) : jsRound (q : ℝ) = ⌊q + 1 / 2⌋ := by
  unfold jsRound
  rw [show ((q : ℝ) + 1 / 2) = ((q + 1 / 2 : ℚ) : ℝ) by push_cast; ring, Rat.floor_cast]

lemma calculateRiskScore_allUnknown_score :
    (calculateRiskScore allUnknownNeo).score = 25 := by
  show min 100 (max 1 (jsRound _)) = 25
  have h1 : extractDiameter allUnknownNeo = none := rfl
  have h2 : extractLunarDistance allUnknownNeo = none := rfl
  have h3 : extractVelocity allUnknownNeo = none := rfl
  have h4 : extractIsHazardous allUnknownNeo = false := rfl
  rw [h1, h2, h3, h4]
  have harg : (((if (false : Bool) = true then (100 : ℚ) else 0) : ℚ) : ℝ) * 0.40 +
      calculateDiameterScore none * 0.25 +
      ((calculateDistanceScore none : ℚ) : ℝ) * 0.25 +
      ((calculateVelocityScore none : ℚ) : ℝ) * 0.10 = ((25 : ℚ) : ℝ) := by
    simp only [calculateDiameterScore, calculateDistanceScore, calculateVelocityScore,
      Bool.false_eq_true, if_false]
    norm_num
  rw [harg, jsRound_ofRat]
  norm_num

lemma calculateRiskScore_allUnknown_category :
    (calculateRiskScore allUnknownNeo).category = "minimal" := by
  show getRiskCategory (min 100 (max 1 (jsRound _))) = "minimal"
  have : (calculateRiskScore allUnknownNeo).score = 25 :=
    calculateRiskScore_allUnknown_score
  rw [show min 100 (max 1 (jsRound _)) = (calculateRiskScore allUnknownNeo).score from rfl, this]
  rfl

lemma logb_ten_thousand : Real.logb 10 (1000 : ℝ) = 3 := by
  rw [show (1000 : ℝ) = 10 ^ (3 : ℕ) by norm_num, Real.logb_pow,
    Real.logb_self_eq_one (by norm_num)]
  norm_num

/-- C1 (amended): for every input object the risk score equals
`round(0.40·hazardWeight + 0.25·diameterScore + 0.25·distanceScore +
0.10·velocityScore)` clamped to `[1,100]`; the score is always in `[1,100]`
(zero is never output); but an object with all-unknown/zero inputs yields
score 25 (the unknown distance is treated as worst case, contributing
`0.25·100`), with category `minimal`. -/
theorem riskScore_formula_clamped_amended :
    (∀ a : NeoObject, (calculateRiskScore a).score =
      min 100 (max 1 (jsRound
        ((Rat.cast (if extractIsHazardous a then (100 : ℚ) else 0) : ℝ) * 0.40 +
          calculateDiameterScore (extractDiameter a) * 0.25 +
          ((calculateDistanceScore (extractLunarDistance a)) : ℝ) * 0.25 +
          ((calculateVelocityScore (extractVelocity a)) : ℝ) * 0.10)))) ∧
    (∀ a : NeoObject, 1 ≤ (calculateRiskScore a).score ∧ (calculateRiskScore a).score ≤ 100) ∧
    (calculateRiskScore allUnknownNeo).score = 25 ∧
    (calculateRiskScore allUnknownNeo).category = "minimal" := by
  refine ⟨fun a => rfl, fun a => ⟨?_, ?_⟩,
    calculateRiskScore_allUnknown_score, calculateRiskScore_allUnknown_category⟩
  · exact le_min (by norm_num) (le_max_left _ _)
  · exact min_le_left _ _

/-- C1 (counterexample): the object with all-unknown/zero inputs does not
score 1 as the claim states; it scores 25. -/
theorem riskScore_allUnknown_not_one :
    (calculateRiskScore allUnknownNeo).score = 25 ∧
      (calculateRiskScore allUnknownNeo).score ≠ 1 := by
  refine ⟨calculateRiskScore_allUnknown_score, ?_⟩
  rw [calculateRiskScore_allUnknown_score]
  decide

/-- C5: the distance sub-score is 100 when the lunar distance is unknown or
`≤ 0`, 100 when `0 < d ≤ 1`, 0 when `d ≥ 50`, and `100·(50−d)/(50−1)` for
`1 < d < 50`; in particular `distanceScore(0.5) = 100`,
`distanceScore(50) = 0` and `distanceScore(25.5) = 50`. -/
theorem distanceScore_cases_and_values :
    (calculateDistanceScore none = 100) ∧
    (∀ d : ℚ, d ≤ 0 → calculateDistanceScore (some d) = 100) ∧
    (∀ d : ℚ, 0 < d → d ≤ 1 → calculateDistanceScore (some d) = 100) ∧
    (∀ d : ℚ, 50 ≤ d → calculateDistanceScore (some d) = 0) ∧
    (∀ d : ℚ, 1 < d → d < 50 →
      calculateDistanceScore (some d) = 100 * (50 - d) / (50 - 1)) ∧
    calculateDistanceScore (some (1 / 2)) = 100 ∧
    calculateDistanceScore (some 50) = 0 ∧
    calculateDistanceScore (some (51 / 2)) = 50 := by
  have hgen : ∀ d : ℚ, 1 < d → d < 50 →
      calculateDistanceScore (some d) = 100 * (50 - d) / (50 - 1) := by
    intro d h1 h50
    simp only [calculateDistanceScore, MIN_SAFE_DISTANCE, MAX_CONCERNING_DISTANCE]
    rw [if_neg (by linarith), if_neg (by linarith), if_neg (by linarith)]
    have hle : (50 - d) / (50 - 1) * 100 ≤ 100 := by
      rw [div_mul_eq_mul_div, div_le_iff₀ (by norm_num)]
      linarith
    have hge : (0 : ℚ) ≤ (50 - d) / (50 - 1) * 100 := by
      apply mul_nonneg (div_nonneg (by linarith) (by norm_num)) (by norm_num)
    rw [max_eq_right hge, min_eq_right hle]
    ring
  refine ⟨rfl, ?_, ?_, ?_, hgen, ?_, ?_, ?_⟩
  · intro d hd
    simp only [calculateDistanceScore]
    rw [if_pos hd]
  · intro d h0 h1
    simp only [calculateDistanceScore, MIN_SAFE_DISTANCE]
    rw [if_neg (by linarith), if_pos h1]
  · intro d h50
    simp only [calculateDistanceScore, MIN_SAFE_DISTANCE, MAX_CONCERNING_DISTANCE]
    rw [if_neg (by linarith), if_neg (by linarith), if_pos h50]
  · simp only [calculateDistanceScore, MIN_SAFE_DISTANCE]
    rw [if_neg (by norm_num), if_pos (by norm_num)]
  · simp only [calculateDistanceScore, MIN_SAFE_DISTANCE, MAX_CONCERNING_DISTANCE]
    rw [if_neg (by norm_num), if_neg (by norm_num), if_pos (by norm_num)]
  · rw [hgen (51 / 2) (by norm_num) (by norm_num)]
    norm_num

/-- C5 witness: the interpolation case applied at the concrete distance 2. -/
theorem distanceScore_cases_witness :
    (1 : ℚ) < 2 ∧ (2 : ℚ) < 50 ∧
      calculateDistanceScore (some 2) = 100 * (50 - 2) / (50 - 1) :=
  ⟨by norm_num, by norm_num,
    distanceScore_cases_and_values.2.2.2.2.1 2 (by norm_num) (by norm_num)⟩

/-- C6: the diameter sub-score is monotone non-decreasing on positive
diameters, 0 for non-positive or missing diameters, and 100 at 1000 m. -/
theorem diameterScore_monotone_endpoints :
    (∀ d1 d2 : ℚ, 0 < d1 → d1 ≤ d2 →
      calculateDiameterScore (some d1) ≤ calculateDiameterScore (some d2)) ∧
    (∀ d : ℚ, d ≤ 0 → calculateDiameterScore (some d) = 0) ∧
    calculateDiameterScore none = 0 ∧
    calculateDiameterScore (some 1000) = 100 := by
  refine ⟨?_, ?_, rfl, ?_⟩
  · intro d1 d2 h1 h12
    have h2 : (0 : ℚ) < d2 := lt_of_lt_of_le h1 h12
    simp only [calculateDiameterScore, MAX_DIAMETER]
    rw [if_neg (not_le.mpr h1), if_neg (not_le.mpr h2)]
    have hlog : Real.logb 10 (d1 : ℝ) ≤ Real.logb 10 (d2 : ℝ) :=
      Real.logb_le_logb_of_le (by norm_num) (by exact_mod_cast h1) (by exact_mod_cast h12)
    have hb : Real.logb 10 ((1000 : ℚ) : ℝ) = 3 := by
      rw [show ((1000 : ℚ) : ℝ) = (1000 : ℝ) by norm_num]
      exact logb_ten_thousand
    refine min_le_min le_rfl (max_le_max le_rfl ?_)
    rw [hb]
    have : Real.logb 10 (d1 : ℝ) / 3 ≤ Real.logb 10 (d2 : ℝ) / 3 := by
      apply div_le_div_of_nonneg_right hlog (by norm_num) |>.trans_eq rfl
    · exact mul_le_mul_of_nonneg_right this (by norm_num)
  · intro d hd
    simp only [calculateDiameterScore]
    rw [if_pos hd]
  · simp only [calculateDiameterScore, MAX_DIAMETER]
    rw [if_neg (by norm_num)]
    have hb : Real.logb 10 ((1000 : ℚ) : ℝ) = 3 := by
      rw [show ((1000 : ℚ) : ℝ) = (1000 : ℝ) by norm_num]
      exact logb_ten_thousand
    rw [hb]
    norm_num

/-- C6 witness: monotonicity applied at the concrete pair (10, 100). -/
theorem diameterScore_monotone_witness :
    (0 : ℚ) < 10 ∧ (10 : ℚ) ≤ 100 ∧
      calculateDiameterScore (some 10) ≤ calculateDiameterScore (some 100) :=
  ⟨by norm_num, by norm_num,
    diameterScore_monotone_endpoints.1 10 100 (by norm_num) (by norm_num)⟩

/-! ## Alert dispatcher (`src/services/alertDispatcher.js`) and the
`Alert` model (`createCloseApproachAlert`). -/

/-- 24 hours in milliseconds (`24 * 60 * 60 * 1000`). -/
def dayMs : ℤ := 24 * 60 * 60 * 1000

/-- JS truthiness of an optional number used as a guard (`x && _`). -/
def jsTruthyQ (x : Option ℚ) : Bool := !jsFalsyQ x

/-- The `alertSettings` sub-document of a user. -/
structure AlertSettings where
  enabled : Bool
  minDiameter : Option ℚ
  maxDistance : Option ℚ
  riskThreshold : Option ℚ
  deriving DecidableEq

/-- A user document as consumed by the dispatcher. -/
structure UserDoc where
  id : String
  watched_asteroid_ids : List String
  alertSettings : AlertSettings
  deriving DecidableEq

/-- A stored asteroid document as consumed by the dispatcher
(`Asteroid.find(...).lean()`). -/
structure AsteroidDoc where
  neo_reference_id : String
  name : String
  riskScore : ℤ
  estimatedDiameterMax : Option ℚ
  missDistanceLunar : Option ℚ
  closeApproachDate : ℤ
  deriving DecidableEq

/-- An `Alert` record (fields relevant to the dispatcher claims). -/
structure AlertRec where
  userId : String
  asteroidId : String
  type : String
  severity : String
  createdAt : ℤ
  deriving DecidableEq

/-- `if (alertSettings.minDiameter && asteroid.estimatedDiameterMax < alertSettings.minDiameter)`:
a missing `estimatedDiameterMax` makes the `<` comparison false in JS. -/
def diameterRejects (asteroid : AsteroidDoc) (alertSettings : AlertSettings) : Bool :=
  jsTruthyQ alertSettings.minDiameter &&
    (match asteroid.estimatedDiameterMax, alertSettings.minDiameter with
     | some d, some m => decide (d < m)
     | _, _ => false)

/-- `if (alertSettings.maxDistance && asteroid.missDistanceLunar > alertSettings.maxDistance)`. -/
def distanceRejects (asteroid : AsteroidDoc) (alertSettings : AlertSettings) : Bool :=
  jsTruthyQ alertSettings.maxDistance &&
    (match asteroid.missDistanceLunar, alertSettings.maxDistance with
     | some d, some m => decide (m < d)
     | _, _ => false)

/-- `if (alertSettings.riskThreshold && asteroid.riskScore < alertSettings.riskThreshold)`
(`riskScore` always exists on stored documents, schema default 0). -/
def riskRejects (asteroid : AsteroidDoc) (alertSettings : AlertSettings) : Bool :=
  jsTruthyQ alertSettings.riskThreshold &&
    (match alertSettings.riskThreshold with
     | some t => decide ((asteroid.riskScore : ℚ) < t)
     | none => false)

/-- `matchesUserThresholds(asteroid, alertSettings)`: each threshold check
returns `false` early; otherwise `true`. -/
def matchesUserThresholds (asteroid : AsteroidDoc) (alertSettings : AlertSettings) : Bool :=
  if diameterRejects asteroid alertSettings then false
  else if distanceRejects asteroid alertSettings then false
  else if riskRejects asteroid alertSettings then false
  else true

/-- `Alert.createCloseApproachAlert(user, asteroid)`: a `close_approach`
record with severity danger/warning/info by score, created now. -/
def createCloseApproachAlert (now : ℤ) (user : UserDoc) (asteroid : AsteroidDoc) : AlertRec :=
  { userId := user.id
    asteroidId := asteroid.neo_reference_id
    type := "close_approach"
    severity :=
      if 75 ≤ asteroid.riskScore then "danger"
      else if 50 ≤ asteroid.riskScore then "warning"
      else "info"
    createdAt := now }

/-- A `CLOSE_APPROACH_ALERT` event pushed to `user:<id>` (payload reduced to
the identifying fields). -/
structure Notif where
  userId : String
  asteroidId : String
  deriving DecidableEq

/-- Result of one `createAlertForUser` call. -/
structure CreateResult where
  created : Option AlertRec
  store : List AlertRec
  notifs : List Notif
  deriving DecidableEq

/-- The dedup query
`Alert.findOne({userId, asteroidId, createdAt: {$gte: Date.now() - 24h}})`.
Note: the source query does not constrain `type`. -/
def dedupMatches (now : ℤ) (userId asteroidId : String) (r : AlertRec) : Bool :=
  decide (r.userId = userId ∧ r.asteroidId = asteroidId ∧ now - dayMs ≤ r.createdAt)

/-- `createAlertForUser(user, asteroid, io)`: skip (no record, no event) when
the dedup query finds a record; otherwise create the alert and push the
event.  The surrounding try/catch (which maps a store error to `null`) is
modelled with the store operations succeeding. -/
def createAlertForUser (now : ℤ) (user : UserDoc) (asteroid : AsteroidDoc)
    (store : List AlertRec) : CreateResult :=
  match store.find? (dedupMatches now user.id asteroid.neo_reference_id) with
  | some _ => ⟨none, store, []⟩
  | none =>
    let alert := createCloseApproachAlert now user asteroid
    ⟨some alert, alert :: store, [⟨user.id, asteroid.neo_reference_id⟩]⟩

/-- `User.find({watched_asteroid_ids: asteroid.neo_reference_id, 'alertSettings.enabled': true})`. -/
def findWatchingUsers (users : List UserDoc) (asteroid : AsteroidDoc) : List UserDoc :=
  users.filter (fun u =>
    decide (asteroid.neo_reference_id ∈ u.watched_asteroid_ids) && u.alertSettings.enabled)

/-- The threshold-matcher query, only issued when `asteroid.riskScore >= 50`:
`User.find({'alertSettings.enabled': true, 'alertSettings.riskThreshold': {$lte: score}, watched_asteroid_ids: {$ne: id}})`. -/
def findThresholdUsers (users : List UserDoc) (asteroid : AsteroidDoc) : List UserDoc :=
  if 50 ≤ asteroid.riskScore then
    users.filter (fun u =>
      u.alertSettings.enabled &&
        (match u.alertSettings.riskThreshold with
         | some t => decide (t ≤ (asteroid.riskScore : ℚ))
         | none => false) &&
        !decide (asteroid.neo_reference_id ∈ u.watched_asteroid_ids))
  else []

/-- Accumulated result of the dispatch loops. -/
structure LoopResult where
  sent : ℕ
  store : List AlertRec
  created : List AlertRec
  notifs : List Notif
  deriving DecidableEq

/-- The inner loop `for (const user of usersToAlert)`: alert each user that
passes `matchesUserThresholds`, threading the alert store. -/
def dispatchLoop (now : ℤ) (asteroid : AsteroidDoc) :
    List UserDoc → List AlertRec → LoopResult
  | [], store => ⟨0, store, [], []⟩
  | user :: rest, store =>
    if matchesUserThresholds asteroid user.alertSettings then
      let res := createAlertForUser now user asteroid store
      let tail := dispatchLoop now asteroid rest res.store
      ⟨(if res.created.isSome then 1 else 0) + tail.sent, tail.store,
        res.created.toList ++ tail.created, res.notifs ++ tail.notifs⟩
    else dispatchLoop now asteroid rest store

/-- The outer loop `for (const asteroid of upcomingAsteroids)`: candidates
are the watchers followed by the threshold-matchers. -/
def sweepLoop (now : ℤ) (users : List UserDoc) :
    List AsteroidDoc → List AlertRec → LoopResult
  | [], store => ⟨0, store, [], []⟩
  | asteroid :: rest, store =>
    let usersToAlert := findWatchingUsers users asteroid ++ findThresholdUsers users asteroid
    let head := dispatchLoop now asteroid usersToAlert store
    let tail := sweepLoop now users rest head.store
    ⟨head.sent + tail.sent, tail.store, head.created ++ tail.created,
      head.notifs ++ tail.notifs⟩

/-- The inputs of one dispatcher run: the stored asteroids and users, the
existing alert records, and the current time. -/
structure World where
  asteroids : List AsteroidDoc
  users : List UserDoc
  alerts : List AlertRec
  now : ℤ

/-- `checkAndDispatchAlerts(io, daysAhead)`: scan asteroids whose
`closeApproachDate` lies in `[now, now + daysAhead·24h]` and dispatch.
(`futureDate.setDate(getDate()+daysAhead)` is modelled as adding
`daysAhead` 24-hour periods.) -/
def checkAndDispatchAlerts (w : World) (daysAhead : ℤ) : LoopResult :=
  let futureDate := w.now + daysAhead * dayMs
  let upcomingAsteroids := w.asteroids.filter (fun a =>
    decide (w.now ≤ a.closeApproachDate) && decide (a.closeApproachDate ≤ futureDate))
  sweepLoop w.now w.users upcomingAsteroids w.alerts

/-! ## Reachable alert-store states

The only code in the repository that ever inserts an `Alert` document is
`createAlertForUser` (via `Alert.createCloseApproachAlert`); the routes only
read, update `isRead`, or delete records.  A reachable state is therefore
built from the empty store by `createAlertForUser` calls at nondecreasing
times, arbitrary deletions, and the passage of time. -/

inductive AlertReachable : ℤ → List AlertRec → Prop
  | nil (t : ℤ) : AlertReachable t []
  | create {t : ℤ} {s : List AlertRec} (t' : ℤ) (user : UserDoc) (asteroid : AsteroidDoc) :
      AlertReachable t s → t ≤ t' →
      AlertReachable t' (createAlertForUser t' user asteroid s).store
  | remove {t : ℤ} {s s' : List AlertRec} :
      AlertReachable t s → s'.Sublist s → AlertReachable t s'
  | tick {t : ℤ} {s : List AlertRec} (t' : ℤ) :
      AlertReachable t s → t ≤ t' → AlertReachable t' s

lemma alertReachable_createdAt_le {t : ℤ} {s : List AlertRec}
    (h : AlertReachable t s) : ∀ r ∈ s, r.createdAt ≤ t := by
  induction h with
  | nil => intro r hr; cases hr
  | create t' user asteroid _ hle ih =>
    intro r hr
    unfold createAlertForUser at hr
    cases hfind : List.find? (dedupMatches t' user.id asteroid.neo_reference_id) _ with
    | some a => rw [hfind] at hr; exact le_trans (ih r hr) hle
    | none =>
      rw [hfind] at hr
      rcases List.mem_cons.mp hr with hr | hr
      · rw [hr]; exact le_rfl
      · exact le_trans (ih r hr) hle
  | remove _ hsub ih => intro r hr; exact ih r (hsub.mem hr)
  | tick t' _ hle ih => intro r hr; exact le_trans (ih r hr) hle

lemma alertReachable_type {t : ℤ} {s : List AlertRec}
    (h : AlertReachable t s) : ∀ r ∈ s, r.type = "close_approach" := by
  induction h with
  | nil => intro r hr; cases hr
  | create t' user asteroid _ _ ih =>
    intro r hr
    unfold createAlertForUser at hr
    cases hfind : List.find? (dedupMatches t' user.id asteroid.neo_reference_id) _ with
    | some a => rw [hfind] at hr; exact ih r hr
    | none =>
      rw [hfind] at hr
      rcases List.mem_cons.mp hr with hr | hr
      · rw [hr]; rfl
      · exact ih r hr
  | remove _ hsub ih => intro r hr; exact ih r (hsub.mem hr)
  | tick t' _ _ ih => exact ih

/-- The dedup separation predicate of the invariant: any two
`close_approach` records for the same (user, object) pair are created at
least 24 hours apart. -/
def dedupSeparated (r1 r2 : AlertRec) : Prop :=
  r1.type = "close_approach" → r2.type = "close_approach" →
    r1.userId = r2.userId → r1.asteroidId = r2.asteroidId →
      dayMs ≤ |r1.createdAt - r2.createdAt|

lemma alertReachable_pairwise {t : ℤ} {s : List AlertRec}
    (h : AlertReachable t s) : s.Pairwise dedupSeparated := by
  induction h with
  | nil => exact List.Pairwise.nil
  | create t' user asteroid hreach hle ih =>
    unfold createAlertForUser
    cases hfind : List.find? (dedupMatches t' user.id asteroid.neo_reference_id) _ with
    | some a => exact ih
    | none =>
      refine List.Pairwise.cons ?_ ih
      intro r hr _ _ huid haid
      have hnot := List.find?_eq_none.mp hfind r hr
      simp only [dedupMatches, decide_eq_true_eq, not_and, not_le] at hnot
      have hlt : r.createdAt < t' - dayMs := hnot huid.symm haid.symm
      have hle' : r.createdAt ≤ t' :=
        le_trans (alertReachable_createdAt_le hreach r hr) hle
      rw [show (createCloseApproachAlert t' user asteroid).createdAt = t' from rfl]
      rw [abs_of_nonneg (by omega)]
      omega
  | remove _ hsub ih => exact ih.sublist hsub
  | tick t' _ _ ih => exact ih

lemma dispatchLoop_reachable (now : ℤ) (asteroid : AsteroidDoc) :
    ∀ (users : List UserDoc) (store : List AlertRec),
      AlertReachable now store →
      AlertReachable now (dispatchLoop now asteroid users store).store := by
  intro users
  induction users with
  | nil => intro store h; exact h
  | cons user rest ih =>
    intro store h
    unfold dispatchLoop
    by_cases hm : matchesUserThresholds asteroid user.alertSettings
    · rw [if_pos hm]
      exact ih _ (AlertReachable.create now user asteroid h le_rfl)
    · rw [if_neg hm]
      exact ih _ h

lemma sweepLoop_reachable (now : ℤ) (users : List UserDoc) :
    ∀ (asteroids : List AsteroidDoc) (store : List AlertRec),
      AlertReachable now store →
      AlertReachable now (sweepLoop now users asteroids store).store := by
  intro asteroids
  induction asteroids with
  | nil => intro store h; exact h
  | cons asteroid rest ih =>
    intro store h
    unfold sweepLoop
    exact ih _ (dispatchLoop_reachable now asteroid _ store h)

/-- A user watching asteroid "X1", alerts enabled, with the default
thresholds (minDiameter 100, maxDistance 10, riskThreshold 50). -/
def scenarioUser : UserDoc :=
  ⟨"U1", ["X1"], ⟨true, some 100, some 10, some 50⟩⟩

/-- An asteroid matching `scenarioUser`'s thresholds, approaching within the
1-day scan window. -/
def scenarioAsteroid : AsteroidDoc :=
  ⟨"X1", "2024 XY", 80, some 500, some 5, 1000⟩

/-- A prior close_approach alert for (U1, X1) created 25 hours before the
sweep time 0. -/
def scenarioPrior25h : AlertRec :=
  ⟨"U1", "X1", "close_approach", "danger", -90000000⟩

/-- A prior close_approach alert for (U1, X1) created 2 hours before the
sweep time 0. -/
def scenarioPrior2h : AlertRec :=
  ⟨"U1", "X1", "close_approach", "danger", -7200000⟩

/-- The sweep world whose only prior record for (U1, X1) is 25 hours old. -/
def scenarioWorld25h : World :=
  ⟨[scenarioAsteroid], [scenarioUser], [scenarioPrior25h], 0⟩

/-- C2: (1) in every reachable alert-store state, any two `close_approach`
records for the same (user, object) pair were created at least 24 hours
apart — no two exist less than 24 hours apart; (2) every store produced by
an alert sweep is such a reachable state; (3) when a record for the same
(user, object) created within the trailing 24 hours exists,
`createAlertForUser` creates no record and sends no notification; (4) a
sweep re-matching a pair whose only prior record is 25 hours old creates
exactly one new record. -/
theorem dedupGuard_invariant_and_scenario :
    (∀ (t : ℤ) (s : List AlertRec), AlertReachable t s → s.Pairwise dedupSeparated) ∧
    (∀ (w : World) (daysAhead t : ℤ), AlertReachable t w.alerts → t ≤ w.now →
      AlertReachable w.now (checkAndDispatchAlerts w daysAhead).store) ∧
    (∀ (now : ℤ) (user : UserDoc) (asteroid : AsteroidDoc) (store : List AlertRec)
      (r : AlertRec), r ∈ store → r.userId = user.id →
      r.asteroidId = asteroid.neo_reference_id → now - dayMs ≤ r.createdAt →
      createAlertForUser now user asteroid store = ⟨none, store, []⟩) ∧
    (checkAndDispatchAlerts scenarioWorld25h 1).created.length = 1 := by
  refine ⟨?_, ?_, ?_, ?_⟩
  · intro t s h
    exact alertReachable_pairwise h
  · intro w daysAhead t h hle
    unfold checkAndDispatchAlerts
    exact sweepLoop_reachable w.now w.users _ w.alerts (AlertReachable.tick w.now h hle)
  · intro now user asteroid store r hr huid haid hge
    unfold createAlertForUser
    cases hfind : store.find? (dedupMatches now user.id asteroid.neo_reference_id) with
    | some a => rfl
    | none =>
      exfalso
      have hcontra := List.find?_eq_none.mp hfind r hr
      apply hcontra
      simp [dedupMatches, huid, haid, hge]
  · decide

/-- C2 witness: the skip conjunct applied to a concrete store whose only
record for (U1, X1) is 2 hours old: no new record, no notification. -/
theorem dedupGuard_witness :
    scenarioPrior2h ∈ [scenarioPrior2h] ∧
    scenarioPrior2h.userId = scenarioUser.id ∧
    scenarioPrior2h.asteroidId = scenarioAsteroid.neo_reference_id ∧
    (0 : ℤ) - dayMs ≤ scenarioPrior2h.createdAt ∧
    createAlertForUser 0 scenarioUser scenarioAsteroid [scenarioPrior2h] =
      ⟨none, [scenarioPrior2h], []⟩ :=
  ⟨List.mem_singleton.mpr rfl, rfl, rfl, by decide,
    dedupGuard_invariant_and_scenario.2.2.1 0 scenarioUser scenarioAsteroid
      [scenarioPrior2h] scenarioPrior2h (List.mem_singleton.mpr rfl) rfl rfl (by decide)⟩

lemma createAlertForUser_created_cases (now : ℤ) (user : UserDoc)
    (asteroid : AsteroidDoc) (store : List AlertRec) :
    (createAlertForUser now user asteroid store).created = none ∨
      (createAlertForUser now user asteroid store).created =
        some (createCloseApproachAlert now user asteroid) := by
  unfold createAlertForUser
  cases List.find? (dedupMatches now user.id asteroid.neo_reference_id) store with
  | some a => exact Or.inl rfl
  | none => exact Or.inr rfl

lemma dispatchLoop_created_mem (now : ℤ) (asteroid : AsteroidDoc) :
    ∀ (users : List UserDoc) (store : List AlertRec) (r : AlertRec),
      r ∈ (dispatchLoop now asteroid users store).created →
      ∃ u ∈ users, matchesUserThresholds asteroid u.alertSettings = true ∧
        r = createCloseApproachAlert now u asteroid := by
  intro users
  induction users with
  | nil => intro store r hr; cases hr
  | cons user rest ih =>
    intro store r hr
    unfold dispatchLoop at hr
    by_cases hm : matchesUserThresholds asteroid user.alertSettings
    · rw [if_pos hm] at hr
      rcases List.mem_append.mp hr with hr | hr
      · rcases createAlertForUser_created_cases now user asteroid store with hc | hc
        · rw [hc] at hr; cases hr
        · rw [hc] at hr
          rcases List.mem_singleton.mp (by simpa using hr) with rfl
          exact ⟨user, List.mem_cons_self user rest, hm, rfl⟩
      · obtain ⟨u, hu, hmu, hru⟩ := ih _ r hr
        exact ⟨u, List.mem_cons_of_mem user hu, hmu, hru⟩
    · rw [if_neg hm] at hr
      obtain ⟨u, hu, hmu, hru⟩ := ih _ r hr
      exact ⟨u, List.mem_cons_of_mem user hu, hmu, hru⟩

lemma sweepLoop_created_mem (now : ℤ) (users : List UserDoc) :
    ∀ (asteroids : List AsteroidDoc) (store : List AlertRec) (r : AlertRec),
      r ∈ (sweepLoop now users asteroids store).created →
      ∃ a ∈ asteroids,
        ∃ u ∈ findWatchingUsers users a ++ findThresholdUsers users a,
          matchesUserThresholds a u.alertSettings = true ∧
            r = createCloseApproachAlert now u a := by
  intro asteroids
  induction asteroids with
  | nil => intro store r hr; cases hr
  | cons asteroid rest ih =>
    intro store r hr
    unfold sweepLoop at hr
    rcases List.mem_append.mp hr with hr | hr
    · obtain ⟨u, hu, hmu, hru⟩ := dispatchLoop_created_mem now asteroid _ store r hr
      exact ⟨asteroid, List.mem_cons_self asteroid rest, u, hu, hmu, hru⟩
    · obtain ⟨a, ha, u, hu, hmu, hru⟩ := ih _ r hr
      exact ⟨a, List.mem_cons_of_mem asteroid ha, u, hu, hmu, hru⟩

lemma candidate_mem_users {users : List UserDoc} {a : AsteroidDoc} {u : UserDoc}
    (hu : u ∈ findWatchingUsers users a ++ findThresholdUsers users a) :
    u ∈ users := by
  rcases List.mem_append.mp hu with hu | hu
  · exact (List.mem_filter.mp hu).1
  · unfold findThresholdUsers at hu
    by_cases h50 : (50 : ℤ) ≤ a.riskScore
    · rw [if_pos h50] at hu
      exact (List.mem_filter.mp hu).1
    · rw [if_neg h50] at hu
      cases hu

/-- A user watching asteroid "X2" with `riskThreshold = 60`. -/
def scenarioUser60 : UserDoc :=
  ⟨"U2", ["X2"], ⟨true, some 100, some 10, some 60⟩⟩

/-- An asteroid with score 40 watched by `scenarioUser60`, inside the scan
window. -/
def scenarioAsteroid40 : AsteroidDoc :=
  ⟨"X2", "2024 AB", 40, some 500, some 5, 1000⟩

/-- The sweep world for the score-40 / riskThreshold-60 scenario. -/
def scenarioWorld40 : World :=
  ⟨[scenarioAsteroid40], [scenarioUser60], [], 0⟩

/-- C3: (1) every AlertRecord created by a sweep belongs to a candidate
user and a scanned asteroid that passed `matchesUserThresholds`; (2) when
the thresholds are set (nonzero) and the asteroid fields are present, the
personal filter is exactly diameter-max ≥ minDiameter AND lunar distance ≤
maxDistance AND score ≥ riskThreshold; (3) a user watching an object with
score 40 who has riskThreshold 60 receives no alert. -/
theorem personalFilter_required_for_alerts :
    (∀ (w : World) (daysAhead : ℤ) (r : AlertRec),
      r ∈ (checkAndDispatchAlerts w daysAhead).created →
      ∃ u ∈ w.users, ∃ a ∈ w.asteroids,
        r.userId = u.id ∧ r.asteroidId = a.neo_reference_id ∧
          matchesUserThresholds a u.alertSettings = true) ∧
    (∀ (a : AsteroidDoc) (s : AlertSettings) (dmax dist m x t : ℚ),
      a.estimatedDiameterMax = some dmax → a.missDistanceLunar = some dist →
      s.minDiameter = some m → m ≠ 0 →
      s.maxDistance = some x → x ≠ 0 →
      s.riskThreshold = some t → t ≠ 0 →
      (matchesUserThresholds a s = true ↔
        (m ≤ dmax ∧ dist ≤ x ∧ t ≤ (a.riskScore : ℚ)))) ∧
    (checkAndDispatchAlerts scenarioWorld40 1).created = [] := by
  refine ⟨?_, ?_, by decide⟩
  · intro w daysAhead r hr
    unfold checkAndDispatchAlerts at hr
    obtain ⟨a, ha, u, hu, hmu, hru⟩ := sweepLoop_created_mem w.now w.users _ w.alerts r hr
    refine ⟨u, candidate_mem_users hu, a, (List.mem_filter.mp ha).1, ?_, ?_, hmu⟩
    · rw [hru]; rfl
    · rw [hru]; rfl
  · intro a s dmax dist m x t hdmax hdist hm hm0 hx hx0 ht ht0
    simp only [matchesUserThresholds, diameterRejects, distanceRejects, riskRejects,
      jsTruthyQ, jsFalsyQ, hdmax, hdist, hm, hx, ht, decide_eq_true_eq]
    by_cases h1 : dmax < m
    · simp [h1, hm0, not_le.mpr h1]
    · by_cases h2 : x < dist
      · simp [h1, h2, hm0, hx0, not_le.mpr h2]
      · by_cases h3 : (a.riskScore : ℚ) < t
        · simp [h1, h2, h3, hm0, hx0, ht0, not_le.mpr h3]
        · simp [h1, h2, h3, hm0, hx0, ht0, not_lt.mp h1, not_lt.mp h2, not_lt.mp h3]

/-- C3 witness: the only-if conjunct applied to the record created by the
concrete sweep of `scenarioWorld25h`. -/
theorem personalFilter_witness :
    createCloseApproachAlert 0 scenarioUser scenarioAsteroid ∈
      (checkAndDispatchAlerts scenarioWorld25h 1).created ∧
    (∃ u ∈ scenarioWorld25h.users, ∃ a ∈ scenarioWorld25h.asteroids,
      (createCloseApproachAlert 0 scenarioUser scenarioAsteroid).userId = u.id ∧
      (createCloseApproachAlert 0 scenarioUser scenarioAsteroid).asteroidId =
        a.neo_reference_id ∧
      matchesUserThresholds a u.alertSettings = true) :=
  ⟨by decide,
    personalFilter_required_for_alerts.1 scenarioWorld25h 1
      (createCloseApproachAlert 0 scenarioUser scenarioAsteroid) (by decide)⟩

/-- C4: the threshold-matcher set is empty for objects scoring below 50;
for any object it consists exactly of the users with alerts enabled, a
riskThreshold at most the object's score, and the object id absent from
their watch set (so in particular it is nonempty only when the score is at
least 50); and it is disjoint from the watcher set. -/
theorem thresholdMatchers_characterization :
    (∀ (users : List UserDoc) (a : AsteroidDoc), a.riskScore < 50 →
      findThresholdUsers users a = []) ∧
    (∀ (users : List UserDoc) (a : AsteroidDoc) (u : UserDoc),
      u ∈ findThresholdUsers users a ↔
        (50 ≤ a.riskScore ∧ u ∈ users ∧ u.alertSettings.enabled = true ∧
          (∃ t : ℚ, u.alertSettings.riskThreshold = some t ∧ t ≤ (a.riskScore : ℚ)) ∧
          a.neo_reference_id ∉ u.watched_asteroid_ids)) ∧
    (∀ (users : List UserDoc) (a : AsteroidDoc) (u : UserDoc),
      u ∈ findThresholdUsers users a → u ∉ findWatchingUsers users a) := by
  have hmem : ∀ (users : List UserDoc) (a : AsteroidDoc) (u : UserDoc),
      u ∈ findThresholdUsers users a ↔
        (50 ≤ a.riskScore ∧ u ∈ users ∧ u.alertSettings.enabled = true ∧
          (∃ t : ℚ, u.alertSettings.riskThreshold = some t ∧ t ≤ (a.riskScore : ℚ)) ∧
          a.neo_reference_id ∉ u.watched_asteroid_ids) := by
    intro users a u
    unfold findThresholdUsers
    by_cases h50 : (50 : ℤ) ≤ a.riskScore
    · rw [if_pos h50, List.mem_filter]
      cases ht : u.alertSettings.riskThreshold with
      | none => simp [ht, h50]
      | some t =>
        simp only [ht, Bool.and_eq_true, decide_eq_true_eq, Bool.not_eq_true',
          decide_eq_false_iff_not]
        constructor
        · rintro ⟨hu, ⟨hen, hle⟩, hnw⟩
          exact ⟨h50, hu, hen, ⟨t, rfl, hle⟩, hnw⟩
        · rintro ⟨_, hu, hen, ⟨t', ht', hle⟩, hnw⟩
          obtain rfl : t = t' := Option.some.inj ht'
          exact ⟨hu, ⟨hen, hle⟩, hnw⟩
    · rw [if_neg h50]
      simp only [List.not_mem_nil, false_iff, not_and]
      intro h
      exact absurd h h50
  refine ⟨?_, hmem, ?_⟩
  · intro users a h
    unfold findThresholdUsers
    rw [if_neg (not_le.mpr h)]
  · intro users a u hu hw
    have hnw := ((hmem users a u).mp hu).2.2.2.2
    have hmemw := List.mem_filter.mp hw
    have : a.neo_reference_id ∈ u.watched_asteroid_ids := by
      have := hmemw.2
      simp only [Bool.and_eq_true, decide_eq_true_eq] at this
      exact this.1
    exact hnw this

/-- C4 witness: the empty-below-50 conjunct applied to the concrete
score-40 asteroid. -/
theorem thresholdMatchers_witness :
    scenarioAsteroid40.riskScore < 50 ∧
      findThresholdUsers [scenarioUser60] scenarioAsteroid40 = [] :=
  ⟨by decide,
    thresholdMatchers_characterization.1 [scenarioUser60] scenarioAsteroid40 (by decide)⟩

/-- C10: in the personal filter each threshold condition is applied only
when the corresponding setting is truthy — a setting that is 0 or absent
never rejects; and a missing asteroid field used in a comparison never
rejects, whatever the threshold; `matchesUserThresholds` is true exactly
when no condition rejects. -/
theorem personalFilter_truthiness :
    (∀ (a : AsteroidDoc) (s : AlertSettings),
      s.minDiameter = none ∨ s.minDiameter = some 0 → diameterRejects a s = false) ∧
    (∀ (a : AsteroidDoc) (s : AlertSettings),
      s.maxDistance = none ∨ s.maxDistance = some 0 → distanceRejects a s = false) ∧
    (∀ (a : AsteroidDoc) (s : AlertSettings),
      s.riskThreshold = none ∨ s.riskThreshold = some 0 → riskRejects a s = false) ∧
    (∀ (a : AsteroidDoc) (s : AlertSettings),
      a.estimatedDiameterMax = none → diameterRejects a s = false) ∧
    (∀ (a : AsteroidDoc) (s : AlertSettings),
      a.missDistanceLunar = none → distanceRejects a s = false) ∧
    (∀ (a : AsteroidDoc) (s : AlertSettings),
      matchesUserThresholds a s = true ↔
        (diameterRejects a s = false ∧ distanceRejects a s = false ∧
          riskRejects a s = false)) := by
  refine ⟨?_, ?_, ?_, ?_, ?_, ?_⟩
  · rintro a s (h | h) <;> simp [diameterRejects, jsTruthyQ, jsFalsyQ, h]
  · rintro a s (h | h) <;> simp [distanceRejects, jsTruthyQ, jsFalsyQ, h]
  · rintro a s (h | h) <;> simp [riskRejects, jsTruthyQ, jsFalsyQ, h]
  · intro a s h
    cases hm : s.minDiameter <;> simp [diameterRejects, jsTruthyQ, jsFalsyQ, h, hm]
  · intro a s h
    cases hm : s.maxDistance <;> simp [distanceRejects, jsTruthyQ, jsFalsyQ, h, hm]
  · intro a s
    unfold matchesUserThresholds
    by_cases h1 : diameterRejects a s <;>
      by_cases h2 : distanceRejects a s <;>
        by_cases h3 : riskRejects a s <;>
          simp [h1, h2, h3]

/-- C10 witness: a user with no `minDiameter` and a `maxDistance` of 0 is
never rejected by the diameter or distance conditions, and an asteroid with
no stored diameter passes the diameter comparison against a threshold. -/
theorem personalFilter_truthiness_witness :
    ((⟨true, none, some 0, some 50⟩ : AlertSettings).minDiameter = none ∨
      (⟨true, none, some 0, some 50⟩ : AlertSettings).minDiameter = some 0) ∧
    diameterRejects scenarioAsteroid ⟨true, none, some 0, some 50⟩ = false ∧
    distanceRejects scenarioAsteroid ⟨true, none, some 0, some 50⟩ = false ∧
    (⟨"X9", "n", 10, none, some 5, 0⟩ : AsteroidDoc).estimatedDiameterMax = none ∧
    diameterRejects ⟨"X9", "n", 10, none, some 5, 0⟩ ⟨true, some 100, some 10, some 50⟩ = false :=
  ⟨Or.inl rfl,
    personalFilter_truthiness.1 scenarioAsteroid ⟨true, none, some 0, some 50⟩ (Or.inl rfl),
    personalFilter_truthiness.2.1 scenarioAsteroid ⟨true, none, some 0, some 50⟩ (Or.inr rfl),
    rfl,
    personalFilter_truthiness.2.2.2.1 ⟨"X9", "n", 10, none, some 5, 0⟩
      ⟨true, some 100, some 10, some 50⟩ rfl⟩

/-! ## Asteroid store upsert (`Asteroid.upsertFromNASA` in the model file) -/

/-- A stored `Asteroid` document as written by `upsertFromNASA`.
`closeApproachDate` keeps the date string handed to `new Date(...)`
(`none` when no close-approach entry exists). -/
structure AsteroidRecord where
  neo_reference_id : String
  name : String
  nasa_jpl_url : Option String
  absolute_magnitude_h : Option ℚ
  riskScore : ℤ
  riskCategory : String
  isPotentiallyHazardous : Bool
  estimatedDiameterMin : Option ℚ
  estimatedDiameterMax : Option ℚ
  closeApproachDate : Option String
  closeApproachDateFull : Option String
  missDistanceKm : ℚ
  missDistanceAu : ℚ
  missDistanceLunar : ℚ
  relativeVelocityKmS : ℚ
  relativeVelocityKmH : ℚ
  orbitingBody : String
  raw_data : NeoObject
  expiresAt : ℤ
  lastFetchedAt : ℤ
  deriving DecidableEq

/-- `nasaData.neo_reference_id || nasaData.id` (an empty string is falsy). -/
def neoExternalId (nasaData : NeoObject) : String :=
  match nasaData.neo_reference_id with
  | some s => if s = "" then nasaData.id else s
  | none => nasaData.id

/-- `findOneAndUpdate({neo_reference_id}, asteroidData, {upsert: true})`:
replace the record with the matching key, or append when none matches. -/
def upsertByKey (store : List AsteroidRecord) (rec : AsteroidRecord) : List AsteroidRecord :=
  if store.any (fun r => decide (r.neo_reference_id = rec.neo_reference_id)) then
    store.map (fun r => if decide (r.neo_reference_id = rec.neo_reference_id) then rec else r)
  else store ++ [rec]

/-- `Asteroid.upsertFromNASA(nasaData, riskScore, riskCategory)`: build the
`asteroidData` document (all fields derived from the input except the TTL
refresh fields, which take the current time) and upsert it by external id. -/
def upsertFromNASA (now : ℤ) (nasaData : NeoObject) (riskScore : ℤ)
    (riskCategory : String) (store : List AsteroidRecord) :
    AsteroidRecord × List AsteroidRecord :=
  let closeApproach := nasaData.close_approach_data.head?
  let diameter := nasaData.estimated_diameter_meters
  let asteroidData : AsteroidRecord :=
    { neo_reference_id := neoExternalId nasaData
      name := nasaData.name
      nasa_jpl_url := nasaData.nasa_jpl_url
      absolute_magnitude_h := nasaData.absolute_magnitude_h
      riskScore := riskScore
      riskCategory := riskCategory
      isPotentiallyHazardous := nasaData.is_potentially_hazardous_asteroid.getD false
      estimatedDiameterMin := diameter.bind DiameterMeters.estimated_diameter_min
      estimatedDiameterMax := diameter.bind DiameterMeters.estimated_diameter_max
      closeApproachDate :=
        closeApproach.map (fun ca => ca.close_approach_date_full.getD ca.close_approach_date)
      closeApproachDateFull := closeApproach.bind CloseApproachEntry.close_approach_date_full
      missDistanceKm :=
        ((closeApproach.bind CloseApproachEntry.miss_distance).bind MissDistance.kilometers).getD 0
      missDistanceAu :=
        ((closeApproach.bind CloseApproachEntry.miss_distance).bind MissDistance.astronomical).getD 0
      missDistanceLunar :=
        ((closeApproach.bind CloseApproachEntry.miss_distance).bind MissDistance.lunar).getD 0
      relativeVelocityKmS :=
        ((closeApproach.bind CloseApproachEntry.relative_velocity).bind
          RelativeVelocity.kilometers_per_second).getD 0
      relativeVelocityKmH :=
        ((closeApproach.bind CloseApproachEntry.relative_velocity).bind
          RelativeVelocity.kilometers_per_hour).getD 0
      orbitingBody := (closeApproach.bind CloseApproachEntry.orbiting_body).getD "Earth"
      raw_data := nasaData
      expiresAt := now + dayMs
      lastFetchedAt := now }
  (asteroidData, upsertByKey store asteroidData)

/-- Forget the two TTL-refresh fields of a stored record. -/
def stripVolatile (r : AsteroidRecord) : AsteroidRecord :=
  { r with expiresAt := 0, lastFetchedAt := 0 }

lemma upsertByKey_keys (store : List AsteroidRecord) (rec : AsteroidRecord)
    (h : store.any (fun r => decide (r.neo_reference_id = rec.neo_reference_id)) = true) :
    (upsertByKey store rec).map (fun r => r.neo_reference_id) =
      store.map (fun r => r.neo_reference_id) := by
  unfold upsertByKey
  rw [if_pos h, List.map_map]
  apply List.map_congr_left
  intro r _
  by_cases hk : r.neo_reference_id = rec.neo_reference_id
  · simp [hk]
  · simp [hk]

lemma upsertByKey_keys_nodup (store : List AsteroidRecord) (rec : AsteroidRecord)
    (h : (store.map (fun r => r.neo_reference_id)).Nodup) :
    ((upsertByKey store rec).map (fun r => r.neo_reference_id)).Nodup := by
  by_cases ha : store.any (fun r => decide (r.neo_reference_id = rec.neo_reference_id)) = true
  · rw [upsertByKey_keys store rec ha]
    exact h
  · unfold upsertByKey
    rw [if_neg ha, List.map_append]
    simp only [List.map_cons, List.map_nil]
    rw [List.nodup_append]
    refine ⟨h, List.nodup_singleton _, ?_⟩
    intro k hk hk1
    rw [List.mem_singleton] at hk1
    obtain ⟨r, hr, hkr⟩ := List.mem_map.mp hk
    rw [List.any_eq_true] at ha
    push_neg at ha
    have := ha r hr
    simp only [ne_eq, decide_eq_true_eq] at this
    exact this (by rw [hkr, hk1])

lemma upsertByKey_self_mem (store : List AsteroidRecord) (rec : AsteroidRecord) :
    rec ∈ upsertByKey store rec := by
  unfold upsertByKey
  by_cases ha : store.any (fun r => decide (r.neo_reference_id = rec.neo_reference_id)) = true
  · rw [if_pos ha]
    obtain ⟨r, hr, hkr⟩ := List.any_eq_true.mp ha
    simp only [decide_eq_true_eq] at hkr
    exact List.mem_map.mpr ⟨r, hr, by simp [hkr]⟩
  · rw [if_neg ha]
    exact List.mem_append_right _ (List.mem_singleton_self rec)

lemma upsertByKey_matching (store : List AsteroidRecord) (rec : AsteroidRecord) :
    ∀ r ∈ upsertByKey store rec, r.neo_reference_id = rec.neo_reference_id → r = rec := by
  intro r hr hk
  unfold upsertByKey at hr
  by_cases ha : store.any (fun r => decide (r.neo_reference_id = rec.neo_reference_id)) = true
  · rw [if_pos ha] at hr
    obtain ⟨o, ho, heq⟩ := List.mem_map.mp hr
    by_cases hko : o.neo_reference_id = rec.neo_reference_id
    · rw [if_pos (by simp [hko])] at heq
      exact heq.symm
    · rw [if_neg (by simp [hko])] at heq
      exact absurd (heq ▸ hk) hko
  · rw [if_neg ha] at hr
    rcases List.mem_append.mp hr with hr | hr
    · rw [List.any_eq_true] at ha
      push_neg at ha
      have := ha r hr
      simp only [ne_eq, decide_eq_true_eq] at this
      exact absurd hk this
    · exact List.mem_singleton.mp hr

/-- C7: upserting the same raw record twice (with the same score inputs)
leaves exactly one stored record per external id, the stored state after
the second upsert equals the state after the first in every field except
`lastFetchedAt`/`expiresAt`, and those two fields strictly advance. -/
theorem upsert_idempotent_modulo_ttl (t1 t2 : ℤ) (x : NeoObject) (sc : ℤ)
    (cat : String) (s0 : List AsteroidRecord)
    (hnodup : (s0.map (fun r => r.neo_reference_id)).Nodup) (ht : t1 < t2) :
    ((upsertFromNASA t2 x sc cat (upsertFromNASA t1 x sc cat s0).2).2.map
        (fun r => r.neo_reference_id)).Nodup ∧
    neoExternalId x ∈ (upsertFromNASA t2 x sc cat (upsertFromNASA t1 x sc cat s0).2).2.map
        (fun r => r.neo_reference_id) ∧
    (upsertFromNASA t2 x sc cat (upsertFromNASA t1 x sc cat s0).2).2.map stripVolatile =
      (upsertFromNASA t1 x sc cat s0).2.map stripVolatile ∧
    stripVolatile (upsertFromNASA t2 x sc cat (upsertFromNASA t1 x sc cat s0).2).1 =
      stripVolatile (upsertFromNASA t1 x sc cat s0).1 ∧
    (upsertFromNASA t1 x sc cat s0).1.lastFetchedAt <
      (upsertFromNASA t2 x sc cat (upsertFromNASA t1 x sc cat s0).2).1.lastFetchedAt ∧
    (upsertFromNASA t1 x sc cat s0).1.expiresAt <
      (upsertFromNASA t2 x sc cat (upsertFromNASA t1 x sc cat s0).2).1.expiresAt := by
  have hs1 : (upsertFromNASA t1 x sc cat s0).2 =
      upsertByKey s0 (upsertFromNASA t1 x sc cat s0).1 := rfl
  have hs2 : (upsertFromNASA t2 x sc cat (upsertFromNASA t1 x sc cat s0).2).2 =
      upsertByKey (upsertFromNASA t1 x sc cat s0).2
        (upsertFromNASA t2 x sc cat (upsertFromNASA t1 x sc cat s0).2).1 := rfl
  have hk1 : (upsertFromNASA t1 x sc cat s0).1.neo_reference_id = neoExternalId x := rfl
  have hkk : (upsertFromNASA t2 x sc cat (upsertFromNASA t1 x sc cat s0).2).1.neo_reference_id =
      (upsertFromNASA t1 x sc cat s0).1.neo_reference_id := rfl
  have hstrip : stripVolatile (upsertFromNASA t2 x sc cat (upsertFromNASA t1 x sc cat s0).2).1 =
      stripVolatile (upsertFromNASA t1 x sc cat s0).1 := rfl
  have hnodup1 : ((upsertFromNASA t1 x sc cat s0).2.map (fun r => r.neo_reference_id)).Nodup := by
    rw [hs1]
    exact upsertByKey_keys_nodup s0 _ hnodup
  have hmem1 : (upsertFromNASA t1 x sc cat s0).1 ∈ (upsertFromNASA t1 x sc cat s0).2 := by
    rw [hs1]
    exact upsertByKey_self_mem s0 _
  have hany2 : ((upsertFromNASA t1 x sc cat s0).2.any (fun r =>
      decide (r.neo_reference_id =
        (upsertFromNASA t2 x sc cat (upsertFromNASA t1 x sc cat s0).2).1.neo_reference_id)))
      = true := by
    refine List.any_eq_true.mpr ⟨(upsertFromNASA t1 x sc cat s0).1, hmem1, ?_⟩
    rw [hkk]
    simp
  refine ⟨?_, ?_, ?_, hstrip, ht, add_lt_add_right ht dayMs⟩
  · rw [hs2]
    exact upsertByKey_keys_nodup _ _ hnodup1
  · rw [hs2, upsertByKey_keys _ _ hany2]
    exact List.mem_map.mpr ⟨(upsertFromNASA t1 x sc cat s0).1, hmem1, hk1⟩
  · rw [hs2]
    unfold upsertByKey
    rw [if_pos hany2, List.map_map]
    apply List.map_congr_left
    intro r hr
    simp only [Function.comp_apply]
    by_cases hk : r.neo_reference_id =
        (upsertFromNASA t2 x sc cat (upsertFromNASA t1 x sc cat s0).2).1.neo_reference_id
    · have hr1 : r = (upsertFromNASA t1 x sc cat s0).1 := by
        apply upsertByKey_matching s0 (upsertFromNASA t1 x sc cat s0).1
        · rw [← hs1]; exact hr
        · rw [← hkk]; exact hk
      rw [if_pos (decide_eq_true hk), hstrip, hr1]
    · rw [if_neg (by simpa using hk)]

/-- C7 witness: the retained-state conjunct applied to a concrete double
ingestion of the empty-field record into the empty store at times 0 and 1. -/
theorem upsert_idempotent_witness :
    (([] : List AsteroidRecord).map (fun r => r.neo_reference_id)).Nodup ∧
    (0 : ℤ) < 1 ∧
    (upsertFromNASA 1 allUnknownNeo 25 "minimal"
        (upsertFromNASA 0 allUnknownNeo 25 "minimal" []).2).2.map stripVolatile =
      (upsertFromNASA 0 allUnknownNeo 25 "minimal" []).2.map stripVolatile :=
  ⟨List.nodup_nil, by norm_num,
    (upsert_idempotent_modulo_ttl 0 1 allUnknownNeo 25 "minimal" []
      List.nodup_nil (by norm_num)).2.2.1⟩

/-! ## Feed client (`src/services/nasaService.js`) -/

/-- The parsed body of a successful NASA feed response: date-keyed lists of
raw objects. -/
structure NeoFeedData where
  element_count : ℕ
  near_earth_objects : List (String × List NeoObject)

/-- The value returned by `fetchNeoFeed` (both the success and the failure
shape carry a `near_earth_objects` collection). -/
structure FeedResult where
  success : Bool
  error : Option String
  element_count : Option ℕ
  near_earth_objects : List (String × List NeoObject)

/-- `fetchNeoFeed(startDate, endDate)`: the whole body sits in a try/catch;
the transport outcome (fetch + non-ok status + JSON parse, all of which
throw into the catch) is the `outcome` parameter.  A throw is caught and
mapped to `{success: false, error, near_earth_objects: {}}`. -/
def fetchNeoFeed (outcome : Except String NeoFeedData) : FeedResult :=
  match outcome with
  | Except.ok data =>
    { success := true
      error := none
      element_count := some data.element_count
      near_earth_objects := data.near_earth_objects }
  | Except.error e =>
    { success := false
      error := some e
      element_count := none
      near_earth_objects := [] }

/-- `fetchTodayNeos()`: `if (!result.success) return [];` then
`result.near_earth_objects[dateKey] || []`. -/
def fetchTodayNeos (today : String) (outcome : Except String NeoFeedData) : List NeoObject :=
  let result := fetchNeoFeed outcome
  if !result.success then []
  else (result.near_earth_objects.lookup today).getD []

/-- C8: a feed failure is caught and mapped to a result carrying zero
records, `fetchTodayNeos` turns it into the same empty list as a successful
feed with nothing available, and every failure-shaped result carries zero
records — the scheduler never sees an exception, only a value. -/
theorem feedFailure_mapped_to_empty :
    (∀ e : String, (fetchNeoFeed (Except.error e)).success = false ∧
      (fetchNeoFeed (Except.error e)).near_earth_objects = []) ∧
    (∀ e today : String, fetchTodayNeos today (Except.error e) = []) ∧
    (∀ (e today : String) (n : ℕ),
      fetchTodayNeos today (Except.error e) = fetchTodayNeos today (Except.ok ⟨n, []⟩)) ∧
    (∀ outcome : Except String NeoFeedData, (fetchNeoFeed outcome).success = false →
      (fetchNeoFeed outcome).near_earth_objects = []) := by
  refine ⟨fun e => ⟨rfl, rfl⟩, fun e today => rfl, fun e today n => rfl, ?_⟩
  intro outcome h
  cases outcome with
  | ok data => exact absurd h (by simp [fetchNeoFeed])
  | error e => rfl

/-- C8 witness: the failure-shape conjunct applied to a concrete failed
transport outcome. -/
theorem feedFailure_witness :
    (fetchNeoFeed (Except.error "NASA API error: 503")).success = false ∧
    (fetchNeoFeed (Except.error "NASA API error: 503")).near_earth_objects = [] :=
  ⟨rfl, feedFailure_mapped_to_empty.2.2.2 (Except.error "NASA API error: 503") rfl⟩

/-! ## Batch processing (`processAndStoreAsteroids` in the scheduler) -/

/-- The `stats` object of `processAndStoreAsteroids`. -/
structure BatchStats where
  total : ℕ
  processed : ℕ
  hazardous : ℕ
  highRisk : ℕ
  errors : ℕ
  deriving DecidableEq

/-- The tally of one successfully processed record:
`stats.processed++`, `if (asteroid.isPotentiallyHazardous) stats.hazardous++`,
`if (risk.category === 'high') stats.highRisk++`. -/
def tallyRecord (stats : BatchStats) (asteroid : AsteroidRecord) (risk : RiskResult) :
    BatchStats :=
  let stats1 := { stats with processed := stats.processed + 1 }
  let stats2 :=
    if asteroid.isPotentiallyHazardous then { stats1 with hazardous := stats1.hazardous + 1 }
    else stats1
  if risk.category = "high" then { stats2 with highRisk := stats2.highRisk + 1 }
  else stats2

/-- The `for (const neo of neoData)` loop: each iteration computes the risk,
upserts, and tallies; a record-level throw (injected by `storeFails`, the
try/catch target) increments `errors` and continues.  The `io.emit`
broadcast for high-risk records has no effect on stats or store and is not
modelled. -/
noncomputable def processLoop (now : ℤ) (storeFails : NeoObject → Bool) :
    List NeoObject → List AsteroidRecord → BatchStats → BatchStats × List AsteroidRecord
  | [], store, stats => (stats, store)
  | neo :: rest, store, stats =>
    if storeFails neo then
      processLoop now storeFails rest store { stats with errors := stats.errors + 1 }
    else
      processLoop now storeFails rest
        (upsertFromNASA now neo (calculateRiskScore neo).score
          (calculateRiskScore neo).category store).2
        (tallyRecord stats
          (upsertFromNASA now neo (calculateRiskScore neo).score
            (calculateRiskScore neo).category store).1
          (calculateRiskScore neo))

/-- `processAndStoreAsteroids(neoData)`: run the loop starting from
`{total: neoData.length, processed: 0, hazardous: 0, highRisk: 0, errors: 0}`. -/
noncomputable def processAndStoreAsteroids (now : ℤ) (neoData : List NeoObject)
    (storeFails : NeoObject → Bool) (store0 : List AsteroidRecord) :
    BatchStats × List AsteroidRecord :=
  processLoop now storeFails neoData store0 ⟨neoData.length, 0, 0, 0, 0⟩

lemma tallyRecord_errors (stats : BatchStats) (a : AsteroidRecord) (r : RiskResult) :
    (tallyRecord stats a r).errors = stats.errors := by
  unfold tallyRecord
  by_cases h1 : a.isPotentiallyHazardous <;> by_cases h2 : r.category = "high" <;>
    simp [h1, h2]

lemma tallyRecord_processed (stats : BatchStats) (a : AsteroidRecord) (r : RiskResult) :
    (tallyRecord stats a r).processed = stats.processed + 1 := by
  unfold tallyRecord
  by_cases h1 : a.isPotentiallyHazardous <;> by_cases h2 : r.category = "high" <;>
    simp [h1, h2]

lemma tallyRecord_total (stats : BatchStats) (a : AsteroidRecord) (r : RiskResult) :
    (tallyRecord stats a r).total = stats.total := by
  unfold tallyRecord
  by_cases h1 : a.isPotentiallyHazardous <;> by_cases h2 : r.category = "high" <;>
    simp [h1, h2]

lemma processLoop_stats (now : ℤ) (storeFails : NeoObject → Bool) :
    ∀ (l : List NeoObject) (store : List AsteroidRecord) (stats : BatchStats),
      (processLoop now storeFails l store stats).1.errors =
        stats.errors + (l.filter storeFails).length ∧
      (processLoop now storeFails l store stats).1.processed =
        stats.processed + (l.filter (fun n => !storeFails n)).length ∧
      (processLoop now storeFails l store stats).1.total = stats.total := by
  intro l
  induction l with
  | nil =>
    intro store stats
    refine ⟨?_, ?_, rfl⟩ <;> simp [processLoop]
  | cons neo rest ih =>
    intro store stats
    by_cases hf : storeFails neo = true
    · rcases ih store { stats with errors := stats.errors + 1 } with ⟨he, hp, ht⟩
      simp only [processLoop, if_pos hf]
      refine ⟨?_, ?_, ht⟩
      · rw [he, List.filter_cons_of_pos (by simp [hf])]
        simp only [List.length_cons]
        omega
      · rw [hp, List.filter_cons_of_neg (by simp [hf])]
    · have hf' : storeFails neo = false := by
        revert hf; cases storeFails neo <;> simp
      rcases ih (upsertFromNASA now neo (calculateRiskScore neo).score
          (calculateRiskScore neo).category store).2
        (tallyRecord stats (upsertFromNASA now neo (calculateRiskScore neo).score
          (calculateRiskScore neo).category store).1 (calculateRiskScore neo))
        with ⟨he, hp, ht⟩
      simp only [processLoop, if_neg hf]
      refine ⟨?_, ?_, ?_⟩
      · rw [he, tallyRecord_errors, List.filter_cons_of_neg (by simp [hf'])]
      · rw [hp, tallyRecord_processed, List.filter_cons_of_pos (by simp [hf'])]
        simp only [List.length_cons]
        omega
      · rw [ht, tallyRecord_total]

lemma upsertByKey_keys_superset (store : List AsteroidRecord) (rec : AsteroidRecord)
    (k : String) (h : k ∈ store.map (fun r => r.neo_reference_id)) :
    k ∈ (upsertByKey store rec).map (fun r => r.neo_reference_id) := by
  by_cases ha : store.any (fun r => decide (r.neo_reference_id = rec.neo_reference_id)) = true
  · rw [upsertByKey_keys store rec ha]
    exact h
  · unfold upsertByKey
    rw [if_neg ha, List.map_append]
    exact List.mem_append_left _ h

lemma upsertByKey_key_self (store : List AsteroidRecord) (rec : AsteroidRecord) :
    rec.neo_reference_id ∈ (upsertByKey store rec).map (fun r => r.neo_reference_id) :=
  List.mem_map.mpr ⟨rec, upsertByKey_self_mem store rec, rfl⟩

lemma processLoop_keys_mono (now : ℤ) (storeFails : NeoObject → Bool) :
    ∀ (l : List NeoObject) (store : List AsteroidRecord) (stats : BatchStats) (k : String),
      k ∈ store.map (fun r => r.neo_reference_id) →
      k ∈ (processLoop now storeFails l store stats).2.map (fun r => r.neo_reference_id) := by
  intro l
  induction l with
  | nil => intro store stats k h; simpa [processLoop] using h
  | cons neo rest ih =>
    intro store stats k h
    by_cases hf : storeFails neo = true
    · simp only [processLoop, if_pos hf]
      exact ih store _ k h
    · simp only [processLoop, if_neg hf]
      exact ih _ _ k (upsertByKey_keys_superset store _ k h)

lemma processLoop_mem_key (now : ℤ) (storeFails : NeoObject → Bool) :
    ∀ (l : List NeoObject) (store : List AsteroidRecord) (stats : BatchStats)
      (neo : NeoObject), neo ∈ l → storeFails neo = false →
      neoExternalId neo ∈
        (processLoop now storeFails l store stats).2.map (fun r => r.neo_reference_id) := by
  intro l
  induction l with
  | nil => intro store stats neo h; cases h
  | cons head rest ih =>
    intro store stats neo hmem hneo
    rcases List.mem_cons.mp hmem with rfl | hmem
    · have hf : ¬(storeFails neo = true) := by simp [hneo]
      simp only [processLoop, if_neg hf]
      apply processLoop_keys_mono
      exact upsertByKey_key_self store _
    · by_cases hf : storeFails head = true
      · simp only [processLoop, if_pos hf]
        exact ih store _ neo hmem hneo
      · simp only [processLoop, if_neg hf]
        exact ih _ _ neo hmem hneo

lemma length_filter_add_length_filter_not (p : NeoObject → Bool) (l : List NeoObject) :
    (l.filter p).length + (l.filter (fun n => !p n)).length = l.length := by
  induction l with
  | nil => rfl
  | cons a t ih =>
    by_cases h : p a = true
    · rw [List.filter_cons_of_pos (by simp [h]), List.filter_cons_of_neg (by simp [h])]
      simp only [List.length_cons]
      omega
    · rw [List.filter_cons_of_neg (by simp [h]),
        List.filter_cons_of_pos (by simp [Bool.eq_false_iff.mpr h])]
      simp only [List.length_cons]
      omega

/-- C9: a record-level storing failure is caught, counted in the error
tally, and does not abort the batch: the loop always completes with
`total = |batch|`, `errors` = the number of failing records, `processed` =
the number of non-failing records (so `processed + errors = total`), and
every non-failing record's external id is present in the resulting store. -/
theorem batch_partial_success (now : ℤ) (neoData : List NeoObject)
    (storeFails : NeoObject → Bool) (store0 : List AsteroidRecord) :
    (processAndStoreAsteroids now neoData storeFails store0).1.total = neoData.length ∧
    (processAndStoreAsteroids now neoData storeFails store0).1.errors =
      (neoData.filter storeFails).length ∧
    (processAndStoreAsteroids now neoData storeFails store0).1.processed =
      (neoData.filter (fun n => !storeFails n)).length ∧
    (processAndStoreAsteroids now neoData storeFails store0).1.processed +
      (processAndStoreAsteroids now neoData storeFails store0).1.errors =
        neoData.length ∧
    (∀ neo ∈ neoData, storeFails neo = false →
      neoExternalId neo ∈ (processAndStoreAsteroids now neoData storeFails store0).2.map
        (fun r => r.neo_reference_id)) := by
  obtain ⟨he, hp, ht⟩ :=
    processLoop_stats now storeFails neoData store0 ⟨neoData.length, 0, 0, 0, 0⟩
  have hz : (⟨neoData.length, 0, 0, 0, 0⟩ : BatchStats).errors = 0 := rfl
  have hz2 : (⟨neoData.length, 0, 0, 0, 0⟩ : BatchStats).processed = 0 := rfl
  unfold processAndStoreAsteroids
  refine ⟨ht, ?_, ?_, ?_, ?_⟩
  · rw [he, hz]
    exact Nat.zero_add _
  · rw [hp, hz2]
    exact Nat.zero_add _
  · rw [he, hp, hz, hz2]
    have h2 := length_filter_add_length_filter_not storeFails neoData
    omega
  · intro neo hmem hneo
    exact processLoop_mem_key now storeFails neoData store0 _ neo hmem hneo

/-- C9 witness: the resulting-store conjunct applied to a concrete
single-record batch with no failures. -/
theorem batch_partial_success_witness :
    allUnknownNeo ∈ [allUnknownNeo] ∧
    (fun _ : NeoObject => false) allUnknownNeo = false ∧
    neoExternalId allUnknownNeo ∈
      (processAndStoreAsteroids 0 [allUnknownNeo] (fun _ => false) []).2.map
        (fun r => r.neo_reference_id) :=
  ⟨List.mem_singleton_self _, rfl,
    (batch_partial_success 0 [allUnknownNeo] (fun _ => false) []).2.2.2.2
      allUnknownNeo (List.mem_singleton_self _) rfl⟩
